import Mathlib

/-!
Verification of the PENEPMA exporter/importer translation layer of
pymontecarlo-penelope, as a shallow embedding of
`pymontecarlo/program/penepma/exporter.py` and
`pymontecarlo/program/penepma/importer.py`.

Conventions of the embedding:
* Python floats are idealised as exact rationals (`ℚ`); degree values, which
  the source obtains through `math.degrees` (multiplication by `180/π`), are
  kept in the exact symbolic form `c + k * (180/π)` (`DegValue`), so the whole
  pipeline stays executable while the real value remains available for the
  unit-conversion theorems.
* Python exceptions (`ExporterException`, `KeyError`, `ImporterException`)
  become `Except` errors; `warnings.warn(..., ExporterWarning)` becomes an
  accumulated list of structured warnings.
* File output: `_create_input_file` returns, on success, the path of the
  `.in` file together with the list of emitted lines; an error result means
  that the exception was raised before the file was opened, hence no file is
  written (in the source all `_append_*` calls happen before `open`).
* External collaborators (the `MaterialInfo` lookup from pypenelopelib, the
  pyxray transition catalog, `photon_range`, and the settings value `dumpp`)
  are parameters collected in `Env`; the filesystem read by the importer is a
  finite association list from paths to already-tokenised file contents.
-/

namespace Penepma

/-- Angular window of a delimited detector: elevation and azimuth limits in
radians (the `elevation_rad` / `azimuth_rad` pairs of the detector). -/
structure Delimiter where
  elevationLow : ℚ
  elevationHigh : ℚ
  azimuthLow : ℚ
  azimuthHigh : ℚ
deriving DecidableEq

/-- Particle kinds of `pymontecarlo.options.particle` used by PENEPMA. -/
inductive Particle
  | electron
  | photon
  | positron
deriving DecidableEq

/-- Collision kinds of `pymontecarlo.options.collision`. -/
inductive Collision
  | delta
  | hardElastic
  | hardInelastic
  | hardBremsstrahlungEmission
  | innershellImpactIonisation
  | coherentRayleighScattering
  | incoherentComptonScattering
  | photoelectricAbsorption
  | electronPositronPairProduction
  | annihilation
deriving DecidableEq

/-- An interaction forcing rule of a material: particle, collision, signed
forcer and the weight window `(wlow, whigh)`. -/
structure InteractionForcing where
  particle : Particle
  collision : Collision
  forcer : ℚ
  weightLow : ℚ
  weightHigh : ℚ
deriving DecidableEq

/-- An atomic transition as used by the exporter: atomic number, the indices
of the destination and source subshells, and its probability (used for
ranking in the spatial-distribution section). -/
structure Transition where
  z : ℕ
  destIndex : ℕ
  srcIndex : ℕ
  probability : ℚ
deriving DecidableEq

/-- A PENELOPE material: its composition (atomic numbers), the electron
absorption energy, its interaction forcings, and whether it is `VACUUM`. -/
structure Material where
  name : String
  composition : List ℕ
  absorptionEnergyElectron_eV : ℚ
  interaction_forcings : List InteractionForcing
  isVacuum : Bool
deriving DecidableEq

/-- A geometry body: its stable `_index` and its material. -/
structure Body where
  index : ℕ
  material : Material
deriving DecidableEq

/-- A geometry: its ordered list of bodies. -/
structure Geometry where
  bodies : List Body
deriving DecidableEq

/-- The Gaussian electron beam of the options (SI units, eV native). -/
structure Beam where
  energy_eV : ℚ
  origin_m : ℚ × ℚ × ℚ
  direction_polar_rad : ℚ
  direction_azimuth_rad : ℚ
  aperture_rad : ℚ
  diameter_m : ℚ
deriving DecidableEq

/-- Detector variants of `pymontecarlo.options.detector` handled by this
program.  The three photon detectors are the `_PhotonDelimitedDetector`
subclasses and carry their angular window. -/
inductive Detector
  | photonSpectrum (delim : Delimiter) (channels : ℕ) (limits_eV : ℚ × ℚ)
  | photonIntensity (delim : Delimiter)
  | photonDepth (delim : Delimiter) (channels : ℕ) (transitions : List Transition)
  | electronFraction
  | timeDetector
  | showersStatistics
  | backscatteredElectronEnergy (limits_eV : ℚ × ℚ) (channels : ℕ)
  | transmittedElectronEnergy (limits_eV : ℚ × ℚ) (channels : ℕ)
deriving DecidableEq

/-- An `UncertaintyLimit`: transition, detector key and relative uncertainty. -/
structure UncertaintyLimit where
  transition : Transition
  detector_key : String
  uncertainty : ℚ
deriving DecidableEq

/-- The limits container of the options (each `iterclass` result in insertion
order). -/
structure Limits where
  uncertainty : List UncertaintyLimit
  showers : List ℚ
  time_s : List ℚ
deriving DecidableEq

/-- An options value: name, beam, ordered detector mapping (insertion order),
geometry and limits.  Immutable input of export and import. -/
structure Options where
  name : String
  beam : Beam
  detectors : List (String × Detector)
  geometry : Geometry
  limits : Limits
deriving DecidableEq

/-! ### Small helpers shared by exporter and importer -/

/-- Association-list lookup, modelling Python `dict` access (`d[k]` /
`d.get(k)`): first binding of the key wins. -/
def alistLookup {κ β : Type} [DecidableEq κ] (l : List (κ × β)) (k : κ) : Option β :=
  match l with
  | [] => none
  | kv :: rest => if kv.1 = k then some kv.2 else alistLookup rest k

/-- Concatenation of the images of `f`, modelling nested accumulation loops. -/
def concatMap {α β : Type} (f : α → List β) : List α → List β
  | [] => []
  | a :: as => f a ++ concatMap f as

/-- Accumulator recursion behind `dedupFirst`: keeps the elements not seen
so far, in order. -/
def dedupFirstAux {α : Type} [DecidableEq α] (seen : List α) : List α → List α
  | [] => []
  | a :: as => if a ∈ seen then dedupFirstAux seen as else a :: dedupFirstAux (a :: seen) as

/-- Deduplication keeping the first occurrence of each element, in order. -/
def dedupFirst {α : Type} [DecidableEq α] (l : List α) : List α :=
  dedupFirstAux [] l

/-- Zero-based position of the first occurrence of `a` (callers only use it
for present elements; mirrors Python `list.index`). -/
def posOf {α : Type} [DecidableEq α] (a : α) : List α → ℕ
  | [] => 0
  | b :: bs => if a = b then 0 else posOf a bs + 1

/-- Minimum of a list of rationals, as Python `min` on a non-empty iterable
(the `[]` case, which Python rejects, returns `0`). -/
def listMinQ : List ℚ → ℚ
  | [] => 0
  | x :: xs => xs.foldl min x

/-- Maximum of a list of rationals (see `listMinQ`). -/
def listMaxQ : List ℚ → ℚ
  | [] => 0
  | x :: xs => xs.foldl max x

/-- Maximum of a list of naturals (see `listMinQ`). -/
def listMaxN : List ℕ → ℕ
  | [] => 0
  | x :: xs => xs.foldl max x

/-! ### Degree values

The source converts radians to degrees with `math.degrees`, i.e.
multiplication by `180/π`.  A `DegValue` stores the exact real value
`c + k * (180/π)` through its rational coefficients, keeping the exporter
executable. -/

/-- Exact representation of a degree-valued quantity `c + k * (180/π)`. -/
structure DegValue where
  c : ℚ
  k : ℚ
deriving DecidableEq

/-- Conversion of `rad` radians to degrees (`math.degrees(rad)`): the value
`rad * 180/π`. -/
def degOf (rad : ℚ) : DegValue := ⟨0, rad⟩

/-- The elevation inversion `90.0 - x` of `_append_photon_detectors`. -/
def sub90 (d : DegValue) : DegValue := ⟨90 - d.c, -d.k⟩

/-- Minimum of two degree values.  At its only call site both operands share
the constant part `c = 90`, where comparing by the coefficient of the
positive constant `180/π` coincides with the real minimum
(`minDeg_toReal` below). -/
def minDeg (a b : DegValue) : DegValue :=
  if a.c < b.c then a else if b.c < a.c then b else if a.k ≤ b.k then a else b

/-- Maximum of two degree values (see `minDeg`). -/
def maxDeg (a b : DegValue) : DegValue :=
  if a.c < b.c then b else if b.c < a.c then a else if a.k ≤ b.k then b else a

/-! ### Emitted lines

One constructor per keyword or comment line produced by the exporter
(`Keyword(...)` / `Comment(...)` applications); the fixed-column text
rendering of the base-class formatter is not claim-relevant. -/

/-- A line of the PENEPMA `.in` file, at the keyword/value level. -/
inductive Line
  | title (text : String)
  | comment (text : String)
  | senerg (e : ℚ)
  | sposit (x y z : ℚ)
  | sdirec (polar azimuth : DegValue)
  | sapert (a : ℚ)
  | sdiam (d : ℚ)
  | mfname (path : String)
  | geomfn (path : String)
  | iforce (kb kpar icol : ℕ) (forcer wlow whigh : ℚ)
  | nbe (low high : ℚ) (channels : ℕ)
  | pdangl (elevLow elevHigh azimLow azimHigh : DegValue) (ipsf : ℕ)
  | pdener (low high : ℚ) (channels : ℕ)
  | gridx (lo hi : ℚ) (n : ℕ)
  | gridy (lo hi : ℚ) (n : ℕ)
  | gridz (lo hi : ℚ) (n : ℕ)
  | xrline (code : ℕ) (detector : ℕ)
  | resume (f : String)
  | dumpto (f : String)
  | dumpp (p : ℚ)
  | reflin (code : ℕ) (detector : ℕ) (tol : ℚ)
  | nsimsh (n : ℚ)
  | timeLimit (t : ℚ)
  | endLine
deriving DecidableEq

/-- The `_COMMENT_SKIP` section-skip marker line. -/
def skipLine : Line := Line.comment (".")

/-- Errors of the export path: each constructor records one `raise` site
(`ExporterException`) or one fatal Python `KeyError` of the source. -/
inductive ExporterError
  | tooManyPhotonDetectors (maxDetectors nDetectors : ℕ)
  | multiplePhotonDepthDetectors
  | materialLookupError
  | collisionLookupError
  | detectorKeyError (key : String)
deriving DecidableEq

/-- Non-fatal `ExporterWarning`s collected for the caller.  In the source the
channel warning interpolates the counter after it was already clamped, so
both recorded numbers equal the limit. -/
inductive ExporterWarning
  | channelsExceed (shown limit : ℕ)
  | noTransitionFound
  | tooManyTransitions (count : ℕ)
deriving DecidableEq

/-- External collaborators of the exporter: the pypenelopelib
`MaterialInfo` lookups (keyed by the material file path), the pyxray
transition catalog, `pymontecarlo.util.photon_range`, and the settings value
`dumpp`. -/
structure Env where
  range_m : String → ℚ → ℕ → ℚ
  meanfreepath_m : String → ℚ → ℕ → ℕ → ℚ
  get_transitions : ℕ → ℚ → ℚ → List Transition
  photon_range : ℚ → Material → Transition → ℚ
  dumpp : ℚ

/-! ### Constants of `exporter.py` -/

/-- MAX_PHOTON_DETECTORS = 25 (set in penepma.f). -/
def MAX_PHOTON_DETECTORS : ℕ := 25

/-- MAX_SPATIAL_DISTRIBUTION = 10 (set in penepma.f). -/
def MAX_SPATIAL_DISTRIBUTION : ℕ := 10

/-- MAX_PHOTON_DETECTOR_CHANNEL = 1000. -/
def MAX_PHOTON_DETECTOR_CHANNEL : ℕ := 1000

/-- The `_PARTICLES_REF` table. -/
def particlesRef : Particle → ℕ
  | .electron => 1
  | .photon => 2
  | .positron => 3

/-- The `_COLLISIONS_REF` table; `none` where the Python nested dict has no
entry (a lookup there raises `KeyError`). -/
def collisionsRef : Particle → Collision → Option ℕ
  | .electron, .hardElastic => some 2
  | .electron, .hardInelastic => some 3
  | .electron, .hardBremsstrahlungEmission => some 4
  | .electron, .innershellImpactIonisation => some 5
  | .electron, .delta => some 7
  | .photon, .coherentRayleighScattering => some 1
  | .photon, .incoherentComptonScattering => some 2
  | .photon, .photoelectricAbsorption => some 3
  | .photon, .electronPositronPairProduction => some 4
  | .photon, .delta => some 7
  | .positron, .hardElastic => some 2
  | .positron, .hardInelastic => some 3
  | .positron, .hardBremsstrahlungEmission => some 4
  | .positron, .innershellImpactIonisation => some 5
  | .positron, .annihilation => some 6
  | .positron, .delta => some 7
  | _, _ => none

/-- The packed transition code `int(z*1e6 + dest.index*1e4 + src.index*1e2)`. -/
def trCode (t : Transition) : ℕ :=
  t.z * 1000000 + t.destIndex * 10000 + t.srcIndex * 100

/-! ### The detector indexing resolver -/

/-- The angular window of a delimited detector (`none` for the detector
classes that are not `_PhotonDelimitedDetector` subclasses). -/
def Detector.delimiter? : Detector → Option Delimiter
  | .photonSpectrum d _ _ => some d
  | .photonIntensity d => some d
  | .photonDepth d _ _ => some d
  | _ => none

/-- The `dict(options.detectors.iterclass(_PhotonDelimitedDetector))` of the
two call sites: the delimited detectors of the options, with their keys, in
insertion order, reduced to their angular windows. -/
def delimitedDetectors (o : Options) : List (String × Delimiter) :=
  o.detectors.filterMap (fun kd => (Detector.delimiter? kd.2).map (fun d => (kd.1, d)))

/-- Modelled from the spec: `index_delimited_detectors` of
`pymontecarlo.program.penepma.options.detector`, a module that is not among
the sources (only its two callers, `Exporter._create_input_file` and
`Importer._import`, are).  Per §4.1 of the spec it deduplicates the angular
windows of the delimited detectors in the iteration (insertion) order of the
detector mapping, assigns ascending indices `0..N-1` to the distinct windows,
and returns the key-to-index map together with its inverse index-to-keys
map, detectors sharing a window being merged onto one index. -/
def index_delimited_detectors (dets : List (String × Delimiter)) :
    List (String × ℕ) × List (ℕ × List String) :=
  let windows := dedupFirst (dets.map Prod.snd)
  let key_index := dets.map (fun kd => (kd.1, posOf kd.2 windows))
  let index_keys := (List.range windows.length).map
    (fun i => (i, (dets.filter (fun kd => decide (posOf kd.2 windows = i))).map Prod.fst))
  (key_index, index_keys)

/-- The resolver exactly as invoked at export time
(`exporter.py:178-182`, `Exporter._create_input_file`). -/
def exporterResolvedIndices (o : Options) :
    List (String × ℕ) × List (ℕ × List String) :=
  index_delimited_detectors (delimitedDetectors o)

/-- The resolver exactly as invoked at import time
(`importer.py:100-104`, `Importer._import`). -/
def importerResolvedIndices (o : Options) :
    List (String × ℕ) × List (ℕ × List String) :=
  index_delimited_detectors (delimitedDetectors o)

/-! ### Exporter sections (`exporter.py`) -/

/-- `_append_title`: the TITLE line followed by the skip marker. -/
def append_title (o : Options) : List Line :=
  [Line.title o.name, skipLine]

/-- `_append_electron_beam` (`exporter.py:217-241`): SENERG in eV unchanged,
SPOSIT converted m to cm (times 100), SDIREC converted rad to deg, SAPERT
emitted as the constant `0.0`, SDIAM converted m to cm. -/
def append_electron_beam (o : Options) : List Line :=
  [Line.comment (">>>>>>>> Electron beam definition."),
   Line.senerg o.beam.energy_eV,
   Line.sposit (100 * o.beam.origin_m.1) (100 * o.beam.origin_m.2.1)
     (100 * o.beam.origin_m.2.2),
   Line.sdirec (degOf o.beam.direction_polar_rad) (degOf o.beam.direction_azimuth_rad),
   Line.sapert 0,
   Line.sdiam (o.beam.diameter_m * 100),
   skipLine]

/-- Modelled from the spec: `_append_material_data` lives in the base class
`pymontecarlo.program._penelope.exporter`, which is not among the sources.
Per §4.3 the section emits one material-file line per material of
`matinfos`, framed by the section comment and the skip marker; its content
is not constrained further by any claim. -/
def append_material_data (matinfos : List (Material × String)) : List Line :=
  Line.comment (">>>>>>>> Material data and simulation parameters.") ::
    matinfos.map (fun mi => Line.mfname mi.2) ++ [skipLine]

/-- Modelled from the spec: `_append_geometry` lives in the base class
`pymontecarlo.program._penelope.exporter`, which is not among the sources.
Per §4.3 the section names the geometry definition file that was written for
`geoinfo`. -/
def append_geometry (geoinfo : Geometry × String) : List Line :=
  [Line.comment (">>>>>>>> Geometry of the sample."), Line.geomfn geoinfo.2, skipLine]

/-- The body of the inner loop of `_append_interaction_forcing`
(`exporter.py:252-280`): one IFORCE line per forcing rule.  A negative
forcer is recalculated as `abs(forcer) * meanfreepath / range` from the
`MaterialInfo` of the material file of the body; a missing entry of
`matinfos` or of `_COLLISIONS_REF` is the fatal `KeyError` of the source. -/
def processForcing (env : Env) (matinfos : List (Material × String)) (e0 : ℚ)
    (body : Body) (intforce : InteractionForcing) : Except ExporterError Line :=
  let kpar := particlesRef intforce.particle
  match collisionsRef intforce.particle intforce.collision with
  | none => .error .collisionLookupError
  | some icol =>
    let forcer := intforce.forcer
    if forcer < 0 then
      match alistLookup matinfos body.material with
      | none => .error .materialLookupError
      | some matfilepath =>
        let plt := env.range_m matfilepath e0 kpar
        let rmfp := env.meanfreepath_m matfilepath e0 kpar icol
        .ok (Line.iforce (body.index + 1) kpar icol (|forcer| * rmfp / plt)
          intforce.weightLow intforce.weightHigh)
    else
      .ok (Line.iforce (body.index + 1) kpar icol forcer
        intforce.weightLow intforce.weightHigh)

/-- Left-to-right effectful map over `Except`, modelling a Python loop whose
body may raise. -/
def traverseExcept {ε α β : Type} (f : α → Except ε β) : List α → Except ε (List β)
  | [] => .ok []
  | a :: as =>
    match f a with
    | .error e => .error e
    | .ok b =>
      match traverseExcept f as with
      | .error e => .error e
      | .ok bs => .ok (b :: bs)

/-- Ascending order on bodies by their `_index` (the sort key of
`_append_interaction_forcing`). -/
def bodyLe (a b : Body) : Prop := a.index ≤ b.index

instance : DecidableRel bodyLe := fun a b => inferInstanceAs (Decidable (a.index ≤ b.index))

/-- `_append_interaction_forcing` (`exporter.py:243-282`): bodies sorted by
index, vacuum bodies skipped, one IFORCE line per forcing rule of each
material, framed by the section comment and the skip marker. -/
def append_interaction_forcing (env : Env) (o : Options) (geoinfo : Geometry × String)
    (matinfos : List (Material × String)) : Except ExporterError (List Line) :=
  let bodies := List.insertionSort bodyLe geoinfo.1.bodies
  let pairs := concatMap
    (fun b => if b.material.isVacuum then []
              else b.material.interaction_forcings.map (fun f => (b, f))) bodies
  match traverseExcept (fun bf => processForcing env matinfos o.beam.energy_eV bf.1 bf.2) pairs with
  | .error e => .error e
  | .ok ls => .ok (Line.comment (">>>>>>>> Interaction forcing.") :: ls ++ [skipLine])

/-- The `limits_eV × channels` data of a `BackscatteredElectronEnergyDetector`. -/
def Detector.backscattered? : Detector → Option ((ℚ × ℚ) × ℕ)
  | .backscatteredElectronEnergy l c => some (l, c)
  | _ => none

/-- The `limits_eV × channels` data of a `TransmittedElectronEnergyDetector`. -/
def Detector.transmitted? : Detector → Option ((ℚ × ℚ) × ℕ)
  | .transmittedElectronEnergy l c => some (l, c)
  | _ => none

/-- `_append_emerging_particles_distribution` (`exporter.py:284-304`): with no
backscattered or transmitted electron-energy detector the section is only the
skip marker; otherwise one NBE line with the overall limits and the maximal
channel count. -/
def append_emerging_particles_distribution (o : Options) : List Line :=
  let dets := o.detectors.filterMap (fun kd => Detector.backscattered? kd.2) ++
    o.detectors.filterMap (fun kd => Detector.transmitted? kd.2)
  if dets.isEmpty then
    [Line.comment (">>>>>>>> Emerging particles. Energy and angular distributions."), skipLine]
  else
    [Line.comment (">>>>>>>> Emerging particles. Energy and angular distributions."),
     Line.nbe (listMinQ (dets.map (fun d => d.1.1))) (listMaxQ (dets.map (fun d => d.1.2)))
       (listMaxN (dets.map (fun d => d.2))),
     skipLine]

/-- The parameters of a `PhotonSpectrumDetector`. -/
structure SpectrumParams where
  delim : Delimiter
  channels : ℕ
  limits_eV : ℚ × ℚ
deriving DecidableEq

/-- The spectrum parameters of a detector, when it is a
`PhotonSpectrumDetector`. -/
def Detector.spectrumParams? : Detector → Option SpectrumParams
  | .photonSpectrum d c l => some ⟨d, c, l⟩
  | _ => none

/-- Detector selection of `_append_photon_detectors` (`exporter.py:320-329`):
the first `PhotonSpectrumDetector` among the detectors of the index, or a
fake spectrum detector with 1000 channels and limits `(0, beam energy)` on
the window of the first detector when none is a spectrum detector. -/
def chooseDetector (beamEnergy : ℚ) (detectors : List Detector) : Option SpectrumParams :=
  match detectors.filterMap Detector.spectrumParams? with
  | p :: _ => some p
  | [] =>
    match detectors with
    | [] => none
    | d0 :: _ => (Detector.delimiter? d0).map (fun delim => ⟨delim, 1000, (0, beamEnergy)⟩)

/-- Loop body of `_append_photon_detectors` (`exporter.py:316-362`) for one
physical detector index: the per-detector comment, the PDANGL line with the
inverted elevations `90 - e` (sorted), and the PDENER line whose channel
count is clamped to `MAX_PHOTON_DETECTOR_CHANNEL` (recording a warning); the
`none` branch is unreachable because every index of the resolver map carries
at least one key. -/
def photonDetectorBlock (o : Options) (ik : ℕ × List String) :
    List Line × List ExporterWarning :=
  let detectors := ik.2.filterMap (fun k => alistLookup o.detectors k)
  match chooseDetector o.beam.energy_eV detectors with
  | none => ([], [])
  | some det =>
    let low := sub90 (degOf det.delim.elevationLow)
    let high := sub90 (degOf det.delim.elevationHigh)
    let chw : ℕ × List ExporterWarning :=
      if det.channels > MAX_PHOTON_DETECTOR_CHANNEL then
        (MAX_PHOTON_DETECTOR_CHANNEL,
         [ExporterWarning.channelsExceed MAX_PHOTON_DETECTOR_CHANNEL MAX_PHOTON_DETECTOR_CHANNEL])
      else (det.channels, [])
    ([Line.comment ("Detector " ++ toString (ik.1 + 1) ++ " used by " ++
        String.intercalate (", ") ik.2),
      Line.pdangl (minDeg low high) (maxDeg low high)
        (degOf det.delim.azimuthLow) (degOf det.delim.azimuthHigh) 0,
      Line.pdener det.limits_eV.1 det.limits_eV.2 chw.1,
      skipLine], chw.2)

/-- `_append_photon_detectors` (`exporter.py:306-362`): raises when the
number of distinct windows exceeds `MAX_PHOTON_DETECTORS`, otherwise emits
one block per index in ascending index order (the resolver returns the
index-to-keys map already ascending). -/
def append_photon_detectors (o : Options) (index_keys : List (ℕ × List String)) :
    Except ExporterError (List Line × List ExporterWarning) :=
  if index_keys.length > MAX_PHOTON_DETECTORS then
    .error (.tooManyPhotonDetectors MAX_PHOTON_DETECTORS index_keys.length)
  else
    .ok (Line.comment (">>>>>>>> Photon detectors.") ::
           concatMap (fun ik => (photonDetectorBlock o ik).1) index_keys,
         concatMap (fun ik => (photonDetectorBlock o ik).2) index_keys)

/-- The `channels × transitions` data of a `PhotonDepthDetector`. -/
structure DepthParams where
  channels : ℕ
  transitions : List Transition
deriving DecidableEq

/-- The depth parameters of a detector, when it is a `PhotonDepthDetector`. -/
def Detector.depthParams? : Detector → Option DepthParams
  | .photonDepth _ c t => some ⟨c, t⟩
  | _ => none

/-- The `dict(options.detectors.iterclass(PhotonDepthDetector))` of
`_append_spatial_distribution`, with keys, in insertion order. -/
def photonDepthDetectors (o : Options) : List (String × DepthParams) :=
  o.detectors.filterMap (fun kd => (Detector.depthParams? kd.2).map (fun p => (kd.1, p)))

/-- The materials of the geometry (`options.geometry.get_materials()` of the
base framework, out of scope per §1: the distinct non-vacuum materials of
the bodies). -/
def getMaterials (g : Geometry) : List Material :=
  dedupFirst ((g.bodies.map (fun b => b.material)).filter (fun m => !m.isVacuum))

/-- Descending order on transitions by probability (the key of
`transitions.sort(key=attrgetter('probability'), reverse=True)`). -/
def probGe (a b : Transition) : Prop := b.probability ≤ a.probability

instance : DecidableRel probGe :=
  fun a b => inferInstanceAs (Decidable (b.probability ≤ a.probability))

instance : IsTotal Transition probGe := ⟨fun a b => le_total b.probability a.probability⟩

instance : IsTrans Transition probGe := ⟨fun _ _ _ hab hbc => le_trans hbc hab⟩

/-- The automatic transition discovery of `_append_spatial_distribution`
(`exporter.py:383-397`): all transitions of the atomic numbers occurring in
the geometry materials, between the lowest electron absorption energy and
the beam energy, through the external catalog. -/
def discoveredTransitions (env : Env) (o : Options) : List Transition :=
  let materials := getMaterials o.geometry
  let zs := dedupFirst (concatMap (fun m => m.composition) materials)
  let energylow := listMinQ (materials.map (fun m => m.absorptionEnergyElectron_eV))
  concatMap (fun z => env.get_transitions z energylow o.beam.energy_eV) zs

/-- `_append_spatial_distribution` (`exporter.py:364-448`).  No depth
detector: skip marker only.  More than one: `ExporterException`.  Otherwise:
candidate transitions from the detector or discovered (warning when the
discovery is empty), sorted by descending probability and truncated with a
warning beyond `MAX_SPATIAL_DISTRIBUTION / 2`; then GRIDX/GRIDY/GRIDZ and,
per kept transition, two XRLINE lines — detector `0` (no absorption) and the
resolved detector index plus one (with absorption). -/
def append_spatial_distribution (env : Env) (o : Options)
    (key_index : List (String × ℕ)) :
    Except ExporterError (List Line × List ExporterWarning) :=
  match photonDepthDetectors o with
  | [] => .ok ([Line.comment (">>>>>>>> Spatial distribution of events in a box."), skipLine], [])
  | [(key, det)] =>
    let materials := getMaterials o.geometry
    let tw : List Transition × List ExporterWarning :=
      if det.transitions.isEmpty then
        let ts := discoveredTransitions env o
        (ts, if ts.isEmpty then [ExporterWarning.noTransitionFound] else [])
      else (det.transitions, [])
    let sorted := List.insertionSort probGe tw.1
    let tw2 : List Transition × List ExporterWarning :=
      if sorted.length > MAX_SPATIAL_DISTRIBUTION / 2 then
        (sorted.take (MAX_SPATIAL_DISTRIBUTION / 2),
         [ExporterWarning.tooManyTransitions sorted.length])
      else (sorted, [])
    let zmax_m := (concatMap
      (fun m => tw2.1.map (fun t => env.photon_range o.beam.energy_eV m t * 3)) materials).foldl
      max (1 / 100000000)
    match alistLookup key_index key with
    | none => .error (.detectorKeyError key)
    | some idx =>
      .ok ([Line.comment (">>>>>>>> Spatial distribution of events in a box."),
            Line.gridx (-3) 3 1,
            Line.gridy (-3) 3 1,
            Line.gridz (-(zmax_m * 100)) 0 (min 100 det.channels)] ++
           concatMap (fun t => [Line.xrline (trCode t) 0, Line.xrline (trCode t) (idx + 1)]) tw2.1 ++
           [skipLine],
           tw.2 ++ tw2.2)
  | _ :: _ :: _ => .error .multiplePhotonDepthDetectors

/-- `_append_job_properties` (`exporter.py:450-496`): dump bookkeeping, the
optional REFLIN line of an `UncertaintyLimit` (a missing detector key is the
fatal `KeyError` of the source), NSIMSH and TIME with the default `1e38`
when no corresponding limit exists. -/
def append_job_properties (env : Env) (o : Options) (key_index : List (String × ℕ)) :
    Except ExporterError (List Line) :=
  let reflinPart : Except ExporterError (List Line) :=
    match o.limits.uncertainty with
    | [] => .ok []
    | lim :: _ =>
      match alistLookup key_index lim.detector_key with
      | none => .error (.detectorKeyError lim.detector_key)
      | some i => .ok [Line.reflin (trCode lim.transition) (i + 1) lim.uncertainty]
  match reflinPart with
  | .error e => .error e
  | .ok rl =>
    .ok ([Line.comment (">>>>>>>> Job properties."),
          Line.resume ("dump.dat"), Line.dumpto ("dump.dat"), Line.dumpp env.dumpp,
          skipLine] ++ rl ++
         [Line.nsimsh (match o.limits.showers with | [] => 10 ^ 38 | s :: _ => s),
          Line.timeLimit (match o.limits.time_s with | [] => 10 ^ 38 | t :: _ => t),
          skipLine])

/-- The successful outcome of `_create_input_file`: the path of the written
`.in` file, its lines, and the collected non-fatal warnings. -/
structure ExportOutput where
  filepath : String
  lines : List Line
  warnings : List ExporterWarning
deriving DecidableEq

/-- `Exporter._create_input_file` (`exporter.py:161-208`): resolves the
detector indices, appends every section in order, and only then writes the
`.in` file.  An `.error` result is an exception raised by one of the section
writers, before the output file is opened: no file is written. -/
def createInputFile (env : Env) (o : Options) (outputdir : String)
    (geoinfo : Geometry × String) (matinfos : List (Material × String)) :
    Except ExporterError ExportOutput :=
  let key_index := (index_delimited_detectors (delimitedDetectors o)).1
  let index_keys := (index_delimited_detectors (delimitedDetectors o)).2
  match append_interaction_forcing env o geoinfo matinfos with
  | .error e => .error e
  | .ok ifLines =>
    match append_photon_detectors o index_keys with
    | .error e => .error e
    | .ok pd =>
      match append_spatial_distribution env o key_index with
      | .error e => .error e
      | .ok sp =>
        match append_job_properties env o key_index with
        | .error e => .error e
        | .ok jobLines =>
          .ok { filepath := outputdir ++ "/" ++ o.name ++ ".in",
                lines := append_title o ++ append_electron_beam o ++
                  append_material_data matinfos ++ append_geometry geoinfo ++
                  ifLines ++ append_emerging_particles_distribution o ++
                  pd.1 ++ sp.1 ++ jobLines ++ [Line.endLine],
                warnings := pd.2 ++ sp.2 }

/-! ### Importer (`importer.py`) -/

/-- The four intensity flags of `PhotonKey` (coherent, bremsstrahlung,
no-fluorescence, total). -/
inductive PKind
  | C
  | B
  | P
  | T
deriving DecidableEq

/-- A `PhotonKey`: transition, absorption flag (emitted vs generated), and
intensity flag. -/
structure PhotonKey where
  transition : Transition
  absorption : Bool
  flag : PKind
deriving DecidableEq

/-- One parsed row of an intensity table, as produced by
`_read_intensities_line`: `none` for an unsupported transition (the
`ValueError` branch), otherwise the transition and the four value/uncertainty
pairs. -/
structure IntensRow where
  transition : Option Transition
  cf : ℚ × ℚ
  bf : ℚ × ℚ
  nf : ℚ × ℚ
  t : ℚ × ℚ
deriving DecidableEq

/-- The content of an output file, already tokenised: the numeric reading of
the raw text (performed in the source by `_load_dat_files`,
`_read_intensities_line` and the log regular expression) is treated as the
external I/O boundary. -/
inductive FileContent
  | datTable (rows : List (ℚ × ℚ × ℚ))
  | intensTable (rows : List IntensRow)
  | logFile (entries : List (String × (ℚ × ℚ)))
deriving DecidableEq

/-- The output directory as seen by the importer: existing paths with their
contents. -/
def FS : Type := List (String × FileContent)

/-- Errors of the import path: `cannotFind` is the
`ImporterException("Data file %s cannot be found")` of the source, carrying
the missing path; the others model a structurally unreadable file and the
fatal `KeyError`s. -/
inductive ImporterError
  | cannotFind (filepath : String)
  | badFormat (filepath : String)
  | logKeyError (name : String)
  | detectorKeyError (key : String)
deriving DecidableEq

/-- Typed result objects, one per detector variant. -/
inductive ImportResult
  | photonSpectrum (total background : List (ℚ × ℚ × ℚ))
  | photonIntensity (intensities : List (PhotonKey × (ℚ × ℚ)))
  | electronFraction (absorbed backscattered transmitted : ℚ × ℚ)
  | timeResult (simulationTime_s : ℚ) (speed : ℚ × ℚ)
  | showersStatistics (showers : ℚ)
  | backscatteredElectronEnergy (data : List (ℚ × ℚ × ℚ))
  | transmittedElectronEnergy (data : List (ℚ × ℚ × ℚ))
deriving DecidableEq

/-- `os.path.join` for the fixed-name artifacts of the output directory. -/
def pathJoin (dir f : String) : String := dir ++ "/" ++ f

/-- `str(index).zfill(2)`. -/
def zfill2 (n : ℕ) : String := if n < 10 then "0" ++ toString n else toString n

/-- The indexed spectrum file name `pe-spect-NN.dat`. -/
def spectFilepath (path : String) (index : ℕ) : String :=
  pathJoin path ("pe-spect-" ++ zfill2 index ++ ".dat")

/-- The indexed emitted-intensity file name `pe-intens-NN.dat`. -/
def intensFilepath (path : String) (index : ℕ) : String :=
  pathJoin path ("pe-intens-" ++ zfill2 index ++ ".dat")

/-- The shared generated-intensity file name `pe-gen-ph.dat`. -/
def genFilepath (path : String) : String := pathJoin path ("pe-gen-ph.dat")

/-- The summary log file name `penepma-res.dat`. -/
def logFilepath (path : String) : String := pathJoin path ("penepma-res.dat")

/-- `Importer._import_photon_spectrum` (`importer.py:110-127`): resolves the
detector index, fails when `pe-spect-NN.dat` is absent, otherwise returns
the total spectrum with an all-zero background on the same energy bins. -/
def import_photon_spectrum (fs : FS) (key_index : List (String × ℕ))
    (key : String) (path : String) : Except ImporterError ImportResult :=
  match alistLookup key_index key with
  | none => .error (.detectorKeyError key)
  | some i =>
    let fp := spectFilepath path (i + 1)
    match alistLookup fs fp with
    | none => .error (.cannotFind fp)
    | some (.datTable rows) =>
      .ok (.photonSpectrum rows (rows.map (fun r => (r.1, 0, 0))))
    | some _ => .error (.badFormat fp)

/-- The four keyed entries contributed by one parsed intensity row (rows with
an unsupported transition are skipped). -/
def intensEntries (absorption : Bool) (r : IntensRow) : List (PhotonKey × (ℚ × ℚ)) :=
  match r.transition with
  | none => []
  | some tr =>
    [(⟨tr, absorption, PKind.C⟩, r.cf), (⟨tr, absorption, PKind.B⟩, r.bf),
     (⟨tr, absorption, PKind.P⟩, r.nf), (⟨tr, absorption, PKind.T⟩, r.t)]

/-- `Importer._import_photon_intensity` (`importer.py:129-195`): resolves the
index, fails when `pe-intens-NN.dat` or `pe-gen-ph.dat` is absent, otherwise
returns the combined keyed table over the generated (absorption `false`) and
emitted (absorption `true`) rows, unparsable rows skipped. -/
def import_photon_intensity (fs : FS) (key_index : List (String × ℕ))
    (key : String) (path : String) : Except ImporterError ImportResult :=
  match alistLookup key_index key with
  | none => .error (.detectorKeyError key)
  | some i =>
    let emittedFp := intensFilepath path (i + 1)
    match alistLookup fs emittedFp with
    | none => .error (.cannotFind emittedFp)
    | some emittedContent =>
      match alistLookup fs (genFilepath path) with
      | none => .error (.cannotFind (genFilepath path))
      | some genContent =>
        match genContent, emittedContent with
        | .intensTable genRows, .intensTable emittedRows =>
          .ok (.photonIntensity (concatMap (intensEntries false) genRows ++
            concatMap (intensEntries true) emittedRows))
        | _, _ => .error (.badFormat (genFilepath path))

/-- `Importer._read_log` (`importer.py:229-255`): fails when
`penepma-res.dat` is absent, otherwise the name-to-(value, uncertainty)
table of the summary log. -/
def read_log (fs : FS) (path : String) : Except ImporterError (List (String × (ℚ × ℚ))) :=
  let fp := logFilepath path
  match alistLookup fs fp with
  | none => .error (.cannotFind fp)
  | some (.logFile entries) => .ok entries
  | some _ => .error (.badFormat fp)

/-- `Importer._import_electron_fraction` (`importer.py:257-264`): the three
named fractions of the summary log (a missing name is the fatal `KeyError`
of the source). -/
def import_electron_fraction (fs : FS) (path : String) : Except ImporterError ImportResult :=
  match read_log fs path with
  | .error e => .error e
  | .ok log =>
    match alistLookup log ("Absorption fraction") with
    | none => .error (.logKeyError ("Absorption fraction"))
    | some absorbed =>
      match alistLookup log ("Upbound fraction") with
      | none => .error (.logKeyError ("Upbound fraction"))
      | some backscattered =>
        match alistLookup log ("Downbound fraction") with
        | none => .error (.logKeyError ("Downbound fraction"))
        | some transmitted => .ok (.electronFraction absorbed backscattered transmitted)

/-- `Importer._import_time` (`importer.py:266-272`): simulation time and the
reciprocal of the simulation speed from the summary log. -/
def import_time (fs : FS) (path : String) : Except ImporterError ImportResult :=
  match read_log fs path with
  | .error e => .error e
  | .ok log =>
    match alistLookup log ("Simulation time") with
    | none => .error (.logKeyError ("Simulation time"))
    | some t =>
      match alistLookup log ("Simulation speed") with
      | none => .error (.logKeyError ("Simulation speed"))
      | some s => .ok (.timeResult t.1 (1 / s.1, 0))

/-- `Importer._import_showers_statistics` (`importer.py:274-279`): the number
of simulated primary showers from the summary log. -/
def import_showers_statistics (fs : FS) (path : String) : Except ImporterError ImportResult :=
  match read_log fs path with
  | .error e => .error e
  | .ok log =>
    match alistLookup log ("Simulated primary showers") with
    | none => .error (.logKeyError ("Simulated primary showers"))
    | some n => .ok (.showersStatistics n.1)

/-- `Importer._import_backscattered_electron_energy` (`importer.py:281-290`):
fails when `pe-energy-el-up.dat` is absent. -/
def import_backscattered_electron_energy (fs : FS) (path : String) :
    Except ImporterError ImportResult :=
  let fp := pathJoin path ("pe-energy-el-up.dat")
  match alistLookup fs fp with
  | none => .error (.cannotFind fp)
  | some (.datTable rows) => .ok (.backscatteredElectronEnergy rows)
  | some _ => .error (.badFormat fp)

/-- `Importer._import_transmitted_electron_energy` (`importer.py:292-301`):
fails when `pe-energy-el-down.dat` is absent. -/
def import_transmitted_electron_energy (fs : FS) (path : String) :
    Except ImporterError ImportResult :=
  let fp := pathJoin path ("pe-energy-el-down.dat")
  match alistLookup fs fp with
  | none => .error (.cannotFind fp)
  | some (.datTable rows) => .ok (.transmittedElectronEnergy rows)
  | some _ => .error (.badFormat fp)

/-! ### Supporting lemmas -/

@[simp]
theorem concatMap_nil {α β : Type} (f : α → List β) : concatMap f [] = [] := rfl

@[simp]
theorem concatMap_cons {α β : Type} (f : α → List β) (a : α) (as : List α) :
    concatMap f (a :: as) = f a ++ concatMap f as := rfl

/-- The real value of `minDeg` is the real minimum when the two operands
share the constant part, as they do at its call site (both are `90 - e`). -/
theorem minDeg_toReal (a b : DegValue) (h : a.c = b.c) :
    ((minDeg a b).c : ℝ) + (minDeg a b).k * (180 / Real.pi) =
      min ((a.c : ℝ) + a.k * (180 / Real.pi)) ((b.c : ℝ) + b.k * (180 / Real.pi)) := by
  have hpos : (0 : ℝ) < 180 / Real.pi := by positivity
  unfold minDeg
  rw [h, if_neg (lt_irrefl b.c), if_neg (lt_irrefl b.c)]
  rcases le_or_lt a.k b.k with hk | hk
  · rw [if_pos hk, eq_comm, min_eq_left]
    · rw [h]
    · have : (a.k : ℝ) ≤ b.k := by exact_mod_cast hk
      nlinarith
  · rw [if_neg (not_le.mpr hk), eq_comm, min_eq_right]
    have : (b.k : ℝ) ≤ a.k := by exact_mod_cast hk.le
    nlinarith

/-- The real value of `maxDeg` is the real maximum when the two operands
share the constant part (see `minDeg_toReal`). -/
theorem maxDeg_toReal (a b : DegValue) (h : a.c = b.c) :
    ((maxDeg a b).c : ℝ) + (maxDeg a b).k * (180 / Real.pi) =
      max ((a.c : ℝ) + a.k * (180 / Real.pi)) ((b.c : ℝ) + b.k * (180 / Real.pi)) := by
  have hpos : (0 : ℝ) < 180 / Real.pi := by positivity
  unfold maxDeg
  rw [h, if_neg (lt_irrefl b.c), if_neg (lt_irrefl b.c)]
  rcases le_or_lt a.k b.k with hk | hk
  · rw [if_pos hk, eq_comm, max_eq_right]
    have : (a.k : ℝ) ≤ b.k := by exact_mod_cast hk
    nlinarith
  · rw [if_neg (not_le.mpr hk), eq_comm, max_eq_left]
    · rw [h]
    · have : (b.k : ℝ) ≤ a.k := by exact_mod_cast hk.le
      nlinarith

/-- Recogniser of XRLINE lines. -/
def isXrline : Line → Bool
  | .xrline _ _ => true
  | _ => false

/-- Filtering the XRLINE pairs emitted for a transition list returns them
unchanged. -/
theorem filter_isXrline_pairs (idx : ℕ) (ts : List Transition) :
    (concatMap (fun t => [Line.xrline (trCode t) 0, Line.xrline (trCode t) (idx + 1)]) ts).filter
        isXrline =
      concatMap (fun t => [Line.xrline (trCode t) 0, Line.xrline (trCode t) (idx + 1)]) ts := by
  induction ts with
  | nil => rfl
  | cons t ts ih => simp [concatMap, isXrline, ih]

/-! ### Concrete fixtures used by the claim witnesses -/

/-- A simple 20 keV beam at the origin. -/
def beamA : Beam := ⟨20000, (0, 0, 0), 0, 0, 0, 1⟩

/-- A collaborator environment with constant lookups. -/
def envA : Env := ⟨fun _ _ _ => 1, fun _ _ _ _ => 1, fun _ _ _ => [], fun _ _ _ => 1, 60⟩

/-- An empty geometry with its geometry-file path. -/
def geoA : Geometry × String := (⟨[]⟩, "geo.geo")

/-- Options with 26 photon-intensity detectors on 26 distinct angular
windows. -/
def optsC2 : Options :=
  { name := "c2", beam := beamA,
    detectors := (List.range 26).map
      (fun i => (toString i, Detector.photonIntensity ⟨(i : ℚ), (i : ℚ) + 1, 0, 6⟩)),
    geometry := ⟨[]⟩, limits := ⟨[], [], []⟩ }

/-- A copper-like material carrying one forcing rule. -/
def matC3 : Material := ⟨"Cu", [29], 50, [⟨.electron, .hardInelastic, -2, 0, 1⟩], false⟩

/-- A forcing rule requesting the automatic correction (negative forcer). -/
def intfC3 : InteractionForcing := ⟨.electron, .hardInelastic, -2, 0, 1⟩

/-- The body owning `matC3`. -/
def bodyC3 : Body := ⟨0, matC3⟩

/-- Material-file table resolving `matC3`. -/
def matinfosC3 : List (Material × String) := [(matC3, "mat1.mat")]

/-- Environment whose material tables give a mean free path of `4e-6` m and
a range of `2e-6` m (the concrete values of the claim). -/
def envC3 : Env :=
  ⟨fun _ _ _ => 2 / 1000000, fun _ _ _ _ => 4 / 1000000, fun _ _ _ => [], fun _ _ _ => 1, 60⟩

/-- A gold-like material with no forcing rules. -/
def matC6 : Material := ⟨"Au", [79], 50, [], false⟩

/-- Options with one photon-depth detector and no transition list. -/
def optsC6 : Options :=
  { name := "c6", beam := beamA,
    detectors := [("prz", Detector.photonDepth ⟨1, 2, 0, 6⟩ 100 [])],
    geometry := ⟨[⟨0, matC6⟩]⟩, limits := ⟨[], [], []⟩ }

/-! ### Claim theorems -/

/-- C1: the detector-index resolution used by export (`_create_input_file`)
and by import (`_import`) is deterministic and reproducible — for every two
options values with equal delimited-detector sets, the (key-to-index,
index-to-keys) maps computed at export time and at import time are
identical, so calling the resolver twice on equal detector sets yields
identical maps. -/
theorem detector_index_resolution_deterministic (o₁ o₂ : Options)
    (h : delimitedDetectors o₁ = delimitedDetectors o₂) :
    exporterResolvedIndices o₁ = importerResolvedIndices o₂ := by
  unfold exporterResolvedIndices importerResolvedIndices
  rw [h]

/-- Witness for C1: two options values differing in everything but their
detectors resolve to identical maps. -/
theorem detector_index_resolution_deterministic_witness :
    delimitedDetectors
        { name := "a", beam := beamA,
          detectors := [("xray1", Detector.photonIntensity ⟨1, 2, 0, 6⟩),
                        ("spec", Detector.photonSpectrum ⟨1, 2, 0, 6⟩ 1000 (0, 20000)),
                        ("xray2", Detector.photonIntensity ⟨3, 4, 0, 6⟩)],
          geometry := ⟨[]⟩, limits := ⟨[], [], []⟩ } =
      delimitedDetectors
        { name := "b", beam := ⟨5000, (0, 0, 0), 0, 0, 1, 2⟩,
          detectors := [("xray1", Detector.photonIntensity ⟨1, 2, 0, 6⟩),
                        ("spec", Detector.photonSpectrum ⟨1, 2, 0, 6⟩ 1000 (0, 20000)),
                        ("xray2", Detector.photonIntensity ⟨3, 4, 0, 6⟩)],
          geometry := ⟨[⟨0, matC6⟩]⟩, limits := ⟨[], [], []⟩ } ∧
    exporterResolvedIndices
        { name := "a", beam := beamA,
          detectors := [("xray1", Detector.photonIntensity ⟨1, 2, 0, 6⟩),
                        ("spec", Detector.photonSpectrum ⟨1, 2, 0, 6⟩ 1000 (0, 20000)),
                        ("xray2", Detector.photonIntensity ⟨3, 4, 0, 6⟩)],
          geometry := ⟨[]⟩, limits := ⟨[], [], []⟩ } =
      importerResolvedIndices
        { name := "b", beam := ⟨5000, (0, 0, 0), 0, 0, 1, 2⟩,
          detectors := [("xray1", Detector.photonIntensity ⟨1, 2, 0, 6⟩),
                        ("spec", Detector.photonSpectrum ⟨1, 2, 0, 6⟩ 1000 (0, 20000)),
                        ("xray2", Detector.photonIntensity ⟨3, 4, 0, 6⟩)],
          geometry := ⟨[⟨0, matC6⟩]⟩, limits := ⟨[], [], []⟩ } :=
  ⟨by decide, detector_index_resolution_deterministic _ _ (by decide)⟩

/-- C3: a forcing rule with a negative forcer is exported with the corrected
forcer `abs(forcer) * meanfreepath / range` at the beam energy; a
non-negative forcer is emitted unchanged; and in particular forcer `-2`
with mean free path `4e-6` m and range `2e-6` m yields the corrected
forcer `4`. -/
theorem interaction_forcing_corrected_forcer (env : Env)
    (matinfos : List (Material × String)) (e0 : ℚ) (body : Body)
    (intf : InteractionForcing) (icol : ℕ) (matfp : String)
    (hicol : collisionsRef intf.particle intf.collision = some icol)
    (hmat : alistLookup matinfos body.material = some matfp) :
    (intf.forcer < 0 →
      processForcing env matinfos e0 body intf =
        .ok (Line.iforce (body.index + 1) (particlesRef intf.particle) icol
          (|intf.forcer| * env.meanfreepath_m matfp e0 (particlesRef intf.particle) icol /
            env.range_m matfp e0 (particlesRef intf.particle))
          intf.weightLow intf.weightHigh)) ∧
    (0 ≤ intf.forcer →
      processForcing env matinfos e0 body intf =
        .ok (Line.iforce (body.index + 1) (particlesRef intf.particle) icol
          intf.forcer intf.weightLow intf.weightHigh)) ∧
    processForcing envC3 matinfosC3 20000 bodyC3 intfC3 =
      .ok (Line.iforce 1 1 3 4 0 1) := by
  refine ⟨fun hneg => ?_, fun hpos => ?_, ?_⟩
  · simp only [processForcing, hicol, hmat, if_pos hneg]
  · simp only [processForcing, hicol, hmat, if_neg (not_lt.mpr hpos)]
  · show processForcing envC3 matinfosC3 20000 bodyC3 intfC3 = _
    simp only [processForcing, envC3, matinfosC3, bodyC3, intfC3, matC3, collisionsRef,
      particlesRef, alistLookup, if_pos rfl]
    norm_num

/-- Witness for C3: the hypotheses hold at the concrete fixture and the
corrected forcer of the `-2` rule evaluates to `4`. -/
theorem interaction_forcing_corrected_forcer_witness :
    collisionsRef intfC3.particle intfC3.collision = some 3 ∧
    alistLookup matinfosC3 bodyC3.material = some ("mat1.mat") ∧
    processForcing envC3 matinfosC3 20000 bodyC3 intfC3 =
      .ok (Line.iforce 1 1 3 4 0 1) :=
  ⟨by decide, by decide,
   (interaction_forcing_corrected_forcer envC3 matinfosC3 20000 bodyC3 intfC3 3
     ("mat1.mat") (by decide) (by decide)).2.2⟩

/-- C7: each importer routine whose input file is absent from the output
directory fails with the `ImporterException` naming the missing path
(`Data file ... cannot be found`), returning no partial result for that
detector: the spectrum importer on `pe-spect-NN.dat`, the intensity
importer on `pe-intens-NN.dat` and on `pe-gen-ph.dat`, the three
summary-log importers on `penepma-res.dat`, and the electron-energy
importers on their fixed-name tables. -/
theorem importer_missing_file_fatal (fs : FS) (ki : List (String × ℕ))
    (key path : String) (i : ℕ)
    (hki : alistLookup ki key = some i) :
    (alistLookup fs (spectFilepath path (i + 1)) = none →
      import_photon_spectrum fs ki key path =
        .error (.cannotFind (spectFilepath path (i + 1)))) ∧
    (alistLookup fs (intensFilepath path (i + 1)) = none →
      import_photon_intensity fs ki key path =
        .error (.cannotFind (intensFilepath path (i + 1)))) ∧
    (∀ c, alistLookup fs (intensFilepath path (i + 1)) = some c →
      alistLookup fs (genFilepath path) = none →
      import_photon_intensity fs ki key path =
        .error (.cannotFind (genFilepath path))) ∧
    (alistLookup fs (logFilepath path) = none →
      import_electron_fraction fs path = .error (.cannotFind (logFilepath path)) ∧
      import_time fs path = .error (.cannotFind (logFilepath path)) ∧
      import_showers_statistics fs path = .error (.cannotFind (logFilepath path))) ∧
    (alistLookup fs (pathJoin path ("pe-energy-el-up.dat")) = none →
      import_backscattered_electron_energy fs path =
        .error (.cannotFind (pathJoin path ("pe-energy-el-up.dat")))) ∧
    (alistLookup fs (pathJoin path ("pe-energy-el-down.dat")) = none →
      import_transmitted_electron_energy fs path =
        .error (.cannotFind (pathJoin path ("pe-energy-el-down.dat")))) := by
  refine ⟨fun h => ?_, fun h => ?_, fun c hc h => ?_, fun h => ⟨?_, ?_, ?_⟩,
    fun h => ?_, fun h => ?_⟩
  · simp only [import_photon_spectrum, hki, h]
  · simp only [import_photon_intensity, hki, h]
  · simp only [import_photon_intensity, hki, hc, h]
  · simp only [import_electron_fraction, read_log, h]
  · simp only [import_time, read_log, h]
  · simp only [import_showers_statistics, read_log, h]
  · simp only [import_backscattered_electron_energy, h]
  · simp only [import_transmitted_electron_energy, h]

/-- Witness for C7: on an empty output directory every routine fails naming
its missing file. -/
theorem importer_missing_file_fatal_witness :
    import_photon_spectrum [] [("det1", 0)] ("det1") ("sim") =
      .error (.cannotFind (spectFilepath ("sim") 1)) ∧
    import_photon_intensity [] [("det1", 0)] ("det1") ("sim") =
      .error (.cannotFind (intensFilepath ("sim") 1)) ∧
    import_electron_fraction [] ("sim") = .error (.cannotFind (logFilepath ("sim"))) ∧
    import_time [] ("sim") = .error (.cannotFind (logFilepath ("sim"))) ∧
    import_showers_statistics [] ("sim") = .error (.cannotFind (logFilepath ("sim"))) ∧
    import_backscattered_electron_energy [] ("sim") =
      .error (.cannotFind (pathJoin ("sim") ("pe-energy-el-up.dat"))) ∧
    import_transmitted_electron_energy [] ("sim") =
      .error (.cannotFind (pathJoin ("sim") ("pe-energy-el-down.dat"))) := by
  have h := importer_missing_file_fatal [] [("det1", 0)] ("det1") ("sim") 0 (by decide)
  exact ⟨h.1 rfl, h.2.1 rfl, (h.2.2.2.1 rfl).1, (h.2.2.2.1 rfl).2.1,
    (h.2.2.2.1 rfl).2.2, h.2.2.2.2.1 rfl, h.2.2.2.2.2 rfl⟩

/-- C8: the electron-beam section applies the unit conversions exactly at
emission — SENERG carries the beam energy in eV unchanged, SPOSIT the
origin multiplied by `100` (m to cm), SDIAM the diameter multiplied by
`100`, SDIREC the direction angles multiplied by `180/π` (rad to deg) —
and the conversions are linear and invertible: dividing by `100`, resp.
multiplying by `π/180`, recovers the original value exactly. -/
theorem unit_conversions_linear_invertible (o : Options) :
    append_electron_beam o =
      [Line.comment (">>>>>>>> Electron beam definition."),
       Line.senerg o.beam.energy_eV,
       Line.sposit (100 * o.beam.origin_m.1) (100 * o.beam.origin_m.2.1)
         (100 * o.beam.origin_m.2.2),
       Line.sdirec (degOf o.beam.direction_polar_rad) (degOf o.beam.direction_azimuth_rad),
       Line.sapert 0,
       Line.sdiam (o.beam.diameter_m * 100),
       skipLine] ∧
    (∀ m : ℚ, 100 * m / 100 = m) ∧
    (∀ m : ℚ, m * 100 / 100 = m) ∧
    (∀ rad : ℚ, ((degOf rad).c : ℝ) + ((degOf rad).k : ℝ) * (180 / Real.pi) =
      (rad : ℝ) * (180 / Real.pi)) ∧
    (∀ x : ℝ, x * (180 / Real.pi) * (Real.pi / 180) = x) := by
  have hπ : Real.pi ≠ 0 := Real.pi_ne_zero
  refine ⟨rfl, fun m => ?_, fun m => ?_, fun rad => ?_, fun x => ?_⟩
  · rw [mul_comm, mul_div_cancel_right₀ m (by norm_num : (100 : ℚ) ≠ 0)]
  · rw [mul_div_cancel_right₀ m (by norm_num : (100 : ℚ) ≠ 0)]
  · simp [degOf]
  · field_simp

/-- C10: the SAPERT line of the electron-beam section carries the constant
`0.0`, and the aperture stored in the beam never influences the exported
file: exporting after replacing the aperture yields the identical result. -/
theorem sapert_constant_zero (env : Env) (o : Options) (outputdir : String)
    (geoinfo : Geometry × String) (matinfos : List (Material × String)) (a : ℚ) :
    append_electron_beam o =
      [Line.comment (">>>>>>>> Electron beam definition."),
       Line.senerg o.beam.energy_eV,
       Line.sposit (100 * o.beam.origin_m.1) (100 * o.beam.origin_m.2.1)
         (100 * o.beam.origin_m.2.2),
       Line.sdirec (degOf o.beam.direction_polar_rad) (degOf o.beam.direction_azimuth_rad),
       Line.sapert 0,
       Line.sdiam (o.beam.diameter_m * 100),
       skipLine] ∧
    createInputFile env { o with beam := { o.beam with aperture_rad := a } }
        outputdir geoinfo matinfos =
      createInputFile env o outputdir geoinfo matinfos :=
  ⟨rfl, rfl⟩

/-- C2: an options value whose delimited detectors resolve to more than 25
distinct photon-detector indices makes `_create_input_file` raise the
format-limit `ExporterException` of `_append_photon_detectors` (the
`FormatLimitExceeded` condition of the spec), provided the earlier
interaction-forcing section raised nothing itself; the failure happens
before the `.in` file is opened, so no output file is written (an `.error`
result of `createInputFile` produces no file). -/
theorem export_detector_limit_no_file (env : Env) (o : Options) (outputdir : String)
    (geoinfo : Geometry × String) (matinfos : List (Material × String)) (ls : List Line)
    (hforce : append_interaction_forcing env o geoinfo matinfos = .ok ls)
    (hcount : (index_delimited_detectors (delimitedDetectors o)).2.length >
      MAX_PHOTON_DETECTORS) :
    createInputFile env o outputdir geoinfo matinfos =
      .error (.tooManyPhotonDetectors MAX_PHOTON_DETECTORS
        (index_delimited_detectors (delimitedDetectors o)).2.length) := by
  unfold createInputFile
  rw [hforce]
  simp only [append_photon_detectors, if_pos hcount]

/-- Witness for C2: 26 photon detectors on distinct windows make export fail
with the detector-limit error while the forcing section succeeded. -/
theorem export_detector_limit_no_file_witness :
    append_interaction_forcing envA optsC2 geoA [] =
      .ok [Line.comment (">>>>>>>> Interaction forcing."), skipLine] ∧
    (index_delimited_detectors (delimitedDetectors optsC2)).2.length >
      MAX_PHOTON_DETECTORS ∧
    createInputFile envA optsC2 ("out") geoA [] =
      .error (.tooManyPhotonDetectors MAX_PHOTON_DETECTORS
        (index_delimited_detectors (delimitedDetectors optsC2)).2.length) :=
  ⟨rfl, by decide,
   export_detector_limit_no_file envA optsC2 ("out") geoA [] _ rfl (by decide)⟩

/-- C4: a photon detector whose channel count exceeds 1000 is emitted with
the PDENER channel count clamped to exactly 1000 together with a recorded
non-fatal `ExporterWarning`; a channel count of at most 1000 is emitted
unchanged with no warning; and within the detector limit the section raises
no exception. -/
theorem photon_detector_channel_clamp (o : Options) (index : ℕ) (keys : List String)
    (det : SpectrumParams)
    (hdet : chooseDetector o.beam.energy_eV
      (keys.filterMap (fun k => alistLookup o.detectors k)) = some det) :
    (det.channels > MAX_PHOTON_DETECTOR_CHANNEL →
      photonDetectorBlock o (index, keys) =
        ([Line.comment ("Detector " ++ toString (index + 1) ++ " used by " ++
            String.intercalate (", ") keys),
          Line.pdangl
            (minDeg (sub90 (degOf det.delim.elevationLow)) (sub90 (degOf det.delim.elevationHigh)))
            (maxDeg (sub90 (degOf det.delim.elevationLow)) (sub90 (degOf det.delim.elevationHigh)))
            (degOf det.delim.azimuthLow) (degOf det.delim.azimuthHigh) 0,
          Line.pdener det.limits_eV.1 det.limits_eV.2 MAX_PHOTON_DETECTOR_CHANNEL,
          skipLine],
         [ExporterWarning.channelsExceed MAX_PHOTON_DETECTOR_CHANNEL
            MAX_PHOTON_DETECTOR_CHANNEL])) ∧
    (det.channels ≤ MAX_PHOTON_DETECTOR_CHANNEL →
      photonDetectorBlock o (index, keys) =
        ([Line.comment ("Detector " ++ toString (index + 1) ++ " used by " ++
            String.intercalate (", ") keys),
          Line.pdangl
            (minDeg (sub90 (degOf det.delim.elevationLow)) (sub90 (degOf det.delim.elevationHigh)))
            (maxDeg (sub90 (degOf det.delim.elevationLow)) (sub90 (degOf det.delim.elevationHigh)))
            (degOf det.delim.azimuthLow) (degOf det.delim.azimuthHigh) 0,
          Line.pdener det.limits_eV.1 det.limits_eV.2 det.channels,
          skipLine], [])) ∧
    (∀ index_keys : List (ℕ × List String),
      index_keys.length ≤ MAX_PHOTON_DETECTORS →
      append_photon_detectors o index_keys =
        .ok (Line.comment (">>>>>>>> Photon detectors.") ::
               concatMap (fun ik => (photonDetectorBlock o ik).1) index_keys,
             concatMap (fun ik => (photonDetectorBlock o ik).2) index_keys)) := by
  refine ⟨fun hgt => ?_, fun hle => ?_, fun ik hik => ?_⟩
  · simp only [photonDetectorBlock, hdet, if_pos hgt]
  · simp only [photonDetectorBlock, hdet, if_neg (not_lt.mpr hle)]
  · simp only [append_photon_detectors, if_neg (not_lt.mpr hik)]

/-- Options with one spectrum detector requesting 1500 channels. -/
def optsC4 : Options :=
  { name := "c4", beam := beamA,
    detectors := [("spec", Detector.photonSpectrum ⟨1, 2, 0, 6⟩ 1500 (0, 20000))],
    geometry := ⟨[]⟩, limits := ⟨[], [], []⟩ }

/-- The spectrum detector of `optsC4`. -/
def detC4 : SpectrumParams := ⟨⟨1, 2, 0, 6⟩, 1500, (0, 20000)⟩

/-- Witness for C4: a requested channel count of 1500 is emitted as 1000
with the recorded warning. -/
theorem photon_detector_channel_clamp_witness :
    chooseDetector optsC4.beam.energy_eV
      (["spec"].filterMap (fun k => alistLookup optsC4.detectors k)) = some detC4 ∧
    detC4.channels > MAX_PHOTON_DETECTOR_CHANNEL ∧
    photonDetectorBlock optsC4 (0, ["spec"]) =
      ([Line.comment ("Detector " ++ toString (0 + 1) ++ " used by " ++
          String.intercalate (", ") ["spec"]),
        Line.pdangl
          (minDeg (sub90 (degOf detC4.delim.elevationLow)) (sub90 (degOf detC4.delim.elevationHigh)))
          (maxDeg (sub90 (degOf detC4.delim.elevationLow)) (sub90 (degOf detC4.delim.elevationHigh)))
          (degOf detC4.delim.azimuthLow) (degOf detC4.delim.azimuthHigh) 0,
        Line.pdener detC4.limits_eV.1 detC4.limits_eV.2 MAX_PHOTON_DETECTOR_CHANNEL,
        skipLine],
       [ExporterWarning.channelsExceed MAX_PHOTON_DETECTOR_CHANNEL
          MAX_PHOTON_DETECTOR_CHANNEL]) :=
  ⟨by decide, by decide,
   (photon_detector_channel_clamp optsC4 0 ["spec"] detC4 (by decide)).1 (by decide)⟩

/-- C9: with two (or more) photon-depth detectors, export raises the
`ExporterException` that PENEPMA can only have one photon depth detector —
provided the earlier fallible sections raised nothing themselves — and no
input file is written; and the spatial-distribution section emits content
beyond the skip marker only when exactly one photon-depth detector is
present. -/
theorem single_photon_depth_detector (env : Env) (o : Options) (outputdir : String)
    (geoinfo : Geometry × String) (matinfos : List (Material × String)) (ls : List Line)
    (kd₁ kd₂ : String × DepthParams) (rest : List (String × DepthParams))
    (hforce : append_interaction_forcing env o geoinfo matinfos = .ok ls)
    (hcount : ¬ (index_delimited_detectors (delimitedDetectors o)).2.length >
      MAX_PHOTON_DETECTORS)
    (hdepth : photonDepthDetectors o = kd₁ :: kd₂ :: rest) :
    createInputFile env o outputdir geoinfo matinfos =
      .error .multiplePhotonDepthDetectors ∧
    (∀ env2 o2 ki res, append_spatial_distribution env2 o2 ki = .ok res →
      (photonDepthDetectors o2).length = 1 ∨
      res = ([Line.comment (">>>>>>>> Spatial distribution of events in a box."),
              skipLine], [])) := by
  constructor
  · unfold createInputFile
    rw [hforce]
    simp only [append_photon_detectors, if_neg hcount, append_spatial_distribution, hdepth]
  · intro env2 o2 ki res h
    rcases hd : photonDepthDetectors o2 with _ | ⟨a, _ | ⟨b, t⟩⟩
    · right
      rw [append_spatial_distribution, hd] at h
      exact (Except.ok.injEq _ _).mp h.symm
    · left
      simp [hd]
    · exfalso
      rw [append_spatial_distribution, hd] at h
      exact Except.noConfusion h

/-- Options with two photon-depth detectors. -/
def optsC9 : Options :=
  { name := "c9", beam := beamA,
    detectors := [("prz1", Detector.photonDepth ⟨1, 2, 0, 6⟩ 100 []),
                  ("prz2", Detector.photonDepth ⟨3, 4, 0, 6⟩ 100 [])],
    geometry := ⟨[]⟩, limits := ⟨[], [], []⟩ }

/-- Witness for C9: two photon-depth detectors make export fail with the
single-depth-detector error. -/
theorem single_photon_depth_detector_witness :
    append_interaction_forcing envA optsC9 geoA [] =
      .ok [Line.comment (">>>>>>>> Interaction forcing."), skipLine] ∧
    ¬ (index_delimited_detectors (delimitedDetectors optsC9)).2.length >
      MAX_PHOTON_DETECTORS ∧
    photonDepthDetectors optsC9 = [("prz1", ⟨100, []⟩), ("prz2", ⟨100, []⟩)] ∧
    createInputFile envA optsC9 ("out") geoA [] =
      .error .multiplePhotonDepthDetectors :=
  ⟨rfl, by decide, by decide,
   (single_photon_depth_detector envA optsC9 ("out") geoA [] _
     ("prz1", ⟨100, []⟩) ("prz2", ⟨100, []⟩) [] rfl (by decide) (by decide)).1⟩

@[simp]
theorem concatMap_const_nil {α β : Type} (l : List α) :
    concatMap (fun _ => ([] : List β)) l = [] := by
  induction l <;> simp [concatMap, *]

/-- C5: with exactly one photon-depth detector whose candidate list sorts to
more than 5 transitions (half of the 10-slot limit), the section records
the truncation warning and emits, after the grid lines, two XRLINE lines
per kept transition — the 5 most probable, in descending probability —
one with detector index 0 and one with the resolved index plus one. -/
theorem spatial_distribution_truncation (env : Env) (o : Options)
    (ki : List (String × ℕ)) (key : String) (det : DepthParams) (idx : ℕ)
    (hdets : photonDepthDetectors o = [(key, det)])
    (hne : det.transitions.isEmpty = false)
    (hlen : (List.insertionSort probGe det.transitions).length >
      MAX_SPATIAL_DISTRIBUTION / 2)
    (hidx : alistLookup ki key = some idx) :
    append_spatial_distribution env o ki =
      .ok ([Line.comment (">>>>>>>> Spatial distribution of events in a box."),
            Line.gridx (-3) 3 1, Line.gridy (-3) 3 1,
            Line.gridz
              (-((concatMap
                  (fun m => ((List.insertionSort probGe det.transitions).take
                    (MAX_SPATIAL_DISTRIBUTION / 2)).map
                      (fun t => env.photon_range o.beam.energy_eV m t * 3))
                  (getMaterials o.geometry)).foldl max (1 / 100000000) * 100))
              0 (min 100 det.channels)] ++
           concatMap (fun t => [Line.xrline (trCode t) 0, Line.xrline (trCode t) (idx + 1)])
             ((List.insertionSort probGe det.transitions).take
               (MAX_SPATIAL_DISTRIBUTION / 2)) ++
           [skipLine],
           [ExporterWarning.tooManyTransitions
             (List.insertionSort probGe det.transitions).length]) ∧
    List.Sorted probGe ((List.insertionSort probGe det.transitions).take
      (MAX_SPATIAL_DISTRIBUTION / 2)) ∧
    (List.insertionSort probGe det.transitions).Perm det.transitions := by
  refine ⟨?_, ?_, ?_⟩
  · simp only [append_spatial_distribution, hdets, hne, Bool.false_eq_true, if_false,
      if_pos hlen, hidx, List.nil_append]
  · exact List.Pairwise.sublist (List.take_sublist _ _)
      (List.sorted_insertionSort probGe det.transitions)
  · exact List.perm_insertionSort probGe det.transitions

/-- Six candidate transitions with distinct probabilities. -/
def detC5trs : List Transition :=
  [⟨29, 1, 3, 1⟩, ⟨29, 1, 4, 2⟩, ⟨29, 1, 5, 3⟩, ⟨29, 1, 6, 4⟩, ⟨29, 1, 7, 5⟩, ⟨29, 1, 8, 6⟩]

/-- Options with one photon-depth detector carrying six transitions. -/
def optsC5 : Options :=
  { name := "c5", beam := beamA,
    detectors := [("prz", Detector.photonDepth ⟨1, 2, 0, 6⟩ 100 detC5trs)],
    geometry := ⟨[⟨0, matC6⟩]⟩, limits := ⟨[], [], []⟩ }

/-- Witness for C5: the six-transition detector satisfies the hypotheses and
the kept list is the sorted 5 most probable. -/
theorem spatial_distribution_truncation_witness :
    photonDepthDetectors optsC5 = [("prz", ⟨100, detC5trs⟩)] ∧
    detC5trs.isEmpty = false ∧
    (List.insertionSort probGe detC5trs).length > MAX_SPATIAL_DISTRIBUTION / 2 ∧
    alistLookup [("prz", 0)] ("prz") = some 0 ∧
    List.Sorted probGe ((List.insertionSort probGe detC5trs).take
      (MAX_SPATIAL_DISTRIBUTION / 2)) ∧
    (List.insertionSort probGe detC5trs).Perm detC5trs := by
  have h := spatial_distribution_truncation envA optsC5 [("prz", 0)] ("prz")
    ⟨100, detC5trs⟩ 0 (by decide) (by decide) (by decide) (by decide)
  exact ⟨by decide, by decide, by decide, by decide, h.2.1, h.2.2⟩

/-- Computation of the spatial-distribution section when the candidate list
comes out empty: the warning is recorded, yet the grid lines are still
emitted — the section is not reduced to the skip marker. -/
theorem spatial_empty_candidates_aux (env : Env) (o : Options)
    (ki : List (String × ℕ)) (key : String) (det : DepthParams) (idx : ℕ)
    (hdets : photonDepthDetectors o = [(key, det)])
    (htr : det.transitions = [])
    (hdisc : discoveredTransitions env o = [])
    (hidx : alistLookup ki key = some idx) :
    append_spatial_distribution env o ki =
      .ok ([Line.comment (">>>>>>>> Spatial distribution of events in a box."),
            Line.gridx (-3) 3 1, Line.gridy (-3) 3 1,
            Line.gridz (-(1 / 100000000 * 100)) 0 (min 100 det.channels), skipLine],
           [ExporterWarning.noTransitionFound]) := by
  simp [append_spatial_distribution, hdets, htr, hdisc, hidx, List.insertionSort,
    MAX_SPATIAL_DISTRIBUTION]

/-- Counterexample for C6: with a photon-depth detector present and an empty
candidate transition list, the section does record the warning, but what it
emits is not an empty section — the GRIDX/GRIDY/GRIDZ lines are still
written (only the XRLINE lines are absent), so the claim "emits an empty
section" is false at this input. -/
theorem spatial_empty_section_counterexample :
    append_spatial_distribution envA optsC6 [("prz", 0)] =
      .ok ([Line.comment (">>>>>>>> Spatial distribution of events in a box."),
            Line.gridx (-3) 3 1, Line.gridy (-3) 3 1,
            Line.gridz (-(1 / 100000000 * 100)) 0 100, skipLine],
           [ExporterWarning.noTransitionFound]) ∧
    [Line.comment (">>>>>>>> Spatial distribution of events in a box."),
     Line.gridx (-3) 3 1, Line.gridy (-3) 3 1,
     Line.gridz (-(1 / 100000000 * 100)) 0 100, skipLine] ≠
      [Line.comment (">>>>>>>> Spatial distribution of events in a box."), skipLine] := by
  constructor
  · exact spatial_empty_candidates_aux envA optsC6 [("prz", 0)] ("prz") ⟨100, []⟩ 0
      (by decide) rfl (by decide) (by decide)
  · intro h
    simpa using congrArg List.length h

/-- C6 (amended): when a photon-depth detector is present but the candidate
transition list is empty, the section records the warning and emits the
grid lines with no XRLINE lines (the GRIDZ depth defaults to the 1e-8 m
minimum, i.e. a lower bound of -1e-6 cm), rather than an empty section. -/
theorem spatial_empty_candidates_amended (env : Env) (o : Options)
    (ki : List (String × ℕ)) (key : String) (det : DepthParams) (idx : ℕ)
    (hdets : photonDepthDetectors o = [(key, det)])
    (htr : det.transitions = [])
    (hdisc : discoveredTransitions env o = [])
    (hidx : alistLookup ki key = some idx) :
    append_spatial_distribution env o ki =
      .ok ([Line.comment (">>>>>>>> Spatial distribution of events in a box."),
            Line.gridx (-3) 3 1, Line.gridy (-3) 3 1,
            Line.gridz (-(1 / 100000000 * 100)) 0 (min 100 det.channels), skipLine],
           [ExporterWarning.noTransitionFound]) :=
  spatial_empty_candidates_aux env o ki key det idx hdets htr hdisc hidx

/-- Witness for C6 (amended): the hypotheses hold at the concrete fixture
and the section carries the grid lines and the warning. -/
theorem spatial_empty_candidates_amended_witness :
    photonDepthDetectors optsC6 = [("prz", ⟨100, []⟩)] ∧
    discoveredTransitions envA optsC6 = [] ∧
    append_spatial_distribution envA optsC6 [("prz", 0)] =
      .ok ([Line.comment (">>>>>>>> Spatial distribution of events in a box."),
            Line.gridx (-3) 3 1, Line.gridy (-3) 3 1,
            Line.gridz (-(1 / 100000000 * 100)) 0 (min 100 100), skipLine],
           [ExporterWarning.noTransitionFound]) :=
  ⟨by decide, by decide,
   spatial_empty_candidates_amended envA optsC6 [("prz", 0)] ("prz") ⟨100, []⟩ 0
     (by decide) rfl (by decide) (by decide)⟩

end Penepma
